import Mathlib

/-!
Shallow embedding of the Playmaker repository's agent-orchestration and
cost-metering layer (src/docs-checker.ts, src/planner.ts, src/generator.ts),
with theorems settling the frozen claims about it.

JavaScript values are modelled as follows: possibly-undefined values are
`Option`, JS strings are Lean `String` (or `List Char` / UTF-16 code-unit
lists where the claim is about character-level behaviour), JS numbers are
`ℚ` for monetary amounts and `Int`/`Nat` for counts, and JS truthiness of a
string-or-undefined value is `isTruthyStr` (undefined and the empty string
are falsy).
-/

namespace Playmaker

/-- JS truthiness of a `string | undefined` value: `undefined` and `""` are
falsy, every other string is truthy. -/
def isTruthyStr : Option String → Bool
  | none => false
  | some s => s ≠ ""

/-! ## SDK message stream

The `@anthropic-ai/claude-agent-sdk` `query` call yields an async stream of
messages.  Both `planner.ts` and `generator.ts` iterate this stream with
`for await` and discriminate on `message.type`.  The fields each loop reads
are embedded; fields neither loop reads are omitted. -/

/-- Token usage attached to an assistant message
(`assistantMsg.usage` in planner.ts). Each token count may be absent
(`usage.input_tokens || 0` in the source). -/
structure Usage where
  input_tokens : Option Nat
  output_tokens : Option Nat
  cache_read_input_tokens : Option Nat
  deriving Repr, DecidableEq

/-- The assistant payload `message.message` read by planner.ts:
its `id` (may be absent) and its `usage` record (may be absent). -/
structure AssistantMsg where
  id : Option String
  usage : Option Usage
  deriving Repr, DecidableEq

/-- One message of the SDK stream, as discriminated by the loops in
planner.ts and generator.ts:
`assistant` carries an optional `message` payload (`message.message` may be
falsy), `system` carries an optional numeric `cost` field (generator.ts
checks `"cost" in message && typeof message.cost === "number"`),
`errorBudgetExceeded` is an error message whose `error.type` is
`"budget_exceeded"`, `errorOther` any other error message, and `other`
every remaining message type. -/
inductive SDKMessage where
  | assistant (m : Option AssistantMsg)
  | system (cost : Option ℚ)
  | errorBudgetExceeded
  | errorOther
  | other
  deriving Repr, DecidableEq

/-- `message.type === "error" && ... message.error.type === "budget_exceeded"`,
the break condition of both loops. -/
def isBudgetExceeded : SDKMessage → Bool
  | .errorBudgetExceeded => true
  | _ => false

/-! ## Planner cost meter (planner.ts, createTestPlan) -/

/-- The mutable state of the planner loop: `totalCost` and the
`processedMessageIds` set (modelled as the list of ids in insertion
order; ids are inserted only when not already present). -/
structure CostState where
  totalCost : ℚ
  processedMessageIds : List String
  deriving Repr, DecidableEq

/-- `inputCost + outputCost + cacheReadCost` for one usage record, with the
rate table of planner.ts: `(usage.input_tokens || 0) * 0.00003 +
(usage.output_tokens || 0) * 0.00015 +
(usage.cache_read_input_tokens || 0) * 0.0000075`. -/
def plannerStepCost (u : Usage) : ℚ :=
  (u.input_tokens.getD 0 : ℚ) * 0.00003
    + (u.output_tokens.getD 0 : ℚ) * 0.00015
    + (u.cache_read_input_tokens.getD 0 : ℚ) * 0.0000075

/-- The cost-tracking part of one planner loop iteration: on an assistant
message whose payload, id and usage are all truthy and whose id has not
been processed, record the id and add the step cost; otherwise leave the
state unchanged. -/
def plannerStep (s : CostState) (m : SDKMessage) : CostState :=
  match m with
  | .assistant (some am) =>
    match am.id, am.usage with
    | some i, some u =>
      if i ≠ "" ∧ ¬ s.processedMessageIds.contains i then
        { totalCost := s.totalCost + plannerStepCost u,
          processedMessageIds := s.processedMessageIds ++ [i] }
      else s
    | _, _ => s
  | _ => s

/-- The planner's `for await` loop over the message stream: apply
`plannerStep` to each message in order and stop (`break`) right after a
budget-exceeded error message. -/
def runPlannerLoop (s : CostState) : List SDKMessage → CostState
  | [] => s
  | m :: rest =>
    let s' := plannerStep s m
    if isBudgetExceeded m then s' else runPlannerLoop s' rest

/-- Abbreviation for an assistant message carrying id `i` and usage `u`,
the shape of a billing-relevant event. -/
def usageMsg (i : String) (u : Usage) : SDKMessage :=
  .assistant (some { id := some i, usage := some u })

/-! ## Generator cost meter (generator.ts, generateTest) -/

/-- The cost-tracking part of one generator loop iteration: on a system
message carrying a numeric `cost` field, add that field to the total;
every other message leaves the total unchanged. -/
def genStep (t : ℚ) (m : SDKMessage) : ℚ :=
  match m with
  | .system (some c) => t + c
  | _ => t

/-- The generator's `for await` loop: apply `genStep` to each message in
order and stop (`break`) right after a budget-exceeded error message. -/
def runGeneratorLoop (t : ℚ) : List SDKMessage → ℚ
  | [] => t
  | m :: rest =>
    let t' := genStep t m
    if isBudgetExceeded m then t' else runGeneratorLoop t' rest

/-- Modelled from the spec: `trackQuery` (src/utils/query-tracker, imported
by docs-checker.ts but not present under src/) consumes the message stream,
deduplicates usage by step identifier and accumulates cost under the fixed
rate table (§4.5), returning the final total and step count. -/
def trackQuery (msgs : List SDKMessage) : ℚ × Nat :=
  let st := runPlannerLoop { totalCost := 0, processedMessageIds := [] } msgs
  (st.totalCost, st.processedMessageIds.length)

section MeterLemmas

/-- A usage message whose id is already in the processed set leaves the
whole planner state unchanged. -/
theorem plannerStep_seen (s : CostState) (i : String) (u : Usage)
    (h : s.processedMessageIds.contains i = true) :
    plannerStep s (usageMsg i u) = s := by
  simp only [plannerStep, usageMsg]
  rw [if_neg]
  exact fun hc => hc.2 h

/-- A usage message with a fresh, truthy id adds exactly the rate-table
cost and records the id. -/
theorem plannerStep_new (s : CostState) (i : String) (u : Usage)
    (hi : i ≠ "") (h : s.processedMessageIds.contains i = false) :
    plannerStep s (usageMsg i u) =
      { totalCost := s.totalCost + plannerStepCost u,
        processedMessageIds := s.processedMessageIds ++ [i] } := by
  simp only [plannerStep, usageMsg]
  rw [if_pos]
  exact ⟨hi, by rw [h]; exact Bool.false_ne_true⟩

/-- `contains` on a list of strings decides membership. -/
theorem contains_eq_true_iff (l : List String) (a : String) :
    l.contains a = true ↔ a ∈ l := List.elem_iff

/-- `contains = false` on a list of strings decides non-membership. -/
theorem contains_eq_false_iff (l : List String) (a : String) :
    l.contains a = false ↔ a ∉ l := by
  rw [← contains_eq_true_iff]
  cases h : l.contains a <;> simp

/-- A usage message is never the budget-exceeded break condition. -/
theorem isBudgetExceeded_usageMsg (i : String) (u : Usage) :
    isBudgetExceeded (usageMsg i u) = false := rfl

end MeterLemmas

/-- C1: a usage event whose step identifier has already been seen leaves the
running total (indeed the whole meter state) unchanged, no matter how many
duplicate usage events carrying that identifier appear in the stream; and
once a usage event with a truthy identifier is processed, that identifier is
in the seen set. -/
theorem duplicate_usage_events_are_absorbed :
    (∀ (s : CostState) (i : String) (u : Usage) (n : Nat) (rest : List SDKMessage),
        i ≠ "" → s.processedMessageIds.contains i = true →
        runPlannerLoop s (List.replicate n (usageMsg i u) ++ rest) = runPlannerLoop s rest)
    ∧ (∀ (s : CostState) (i : String) (u : Usage), i ≠ "" →
        (plannerStep s (usageMsg i u)).processedMessageIds.contains i = true) := by
  constructor
  · intro s i u n rest hi h
    induction n with
    | zero => simp
    | succ n ih =>
      rw [List.replicate_succ, List.cons_append, runPlannerLoop]
      simp only [plannerStep_seen s i u h, isBudgetExceeded_usageMsg, Bool.false_eq_true,
        if_false]
      exact ih
  · intro s i u hi
    cases h : s.processedMessageIds.contains i with
    | true => rw [plannerStep_seen s i u h]; exact h
    | false =>
      rw [plannerStep_new s i u hi h]
      exact (contains_eq_true_iff _ _).mpr (by simp)

/-- Witness for C1 at a concrete duplicated stream. -/
theorem duplicate_usage_events_are_absorbed_witness :
    runPlannerLoop { totalCost := 0, processedMessageIds := ["m1"] }
        (List.replicate 3 (usageMsg "m1" ⟨some 10, some 5, some 0⟩) ++ [SDKMessage.other]) =
      runPlannerLoop { totalCost := 0, processedMessageIds := ["m1"] } [SDKMessage.other] :=
  duplicate_usage_events_are_absorbed.1
    { totalCost := 0, processedMessageIds := ["m1"] }
    "m1" ⟨some 10, some 5, some 0⟩ 3 [SDKMessage.other] (by decide) (by decide)

/-- The list of usage messages built from id/usage pairs. -/
def usageMsgs (items : List (String × Usage)) : List SDKMessage :=
  items.map (fun p => usageMsg p.1 p.2)

/-- Processing a block of usage messages with pairwise distinct, truthy,
fresh identifiers adds exactly the sum of the rate-table costs and records
every identifier. -/
theorem runPlannerLoop_fresh (s : CostState) (items : List (String × Usage))
    (h1 : ∀ p ∈ items, p.1 ≠ "")
    (h2 : (items.map Prod.fst).Nodup)
    (h3 : ∀ p ∈ items, s.processedMessageIds.contains p.1 = false) :
    runPlannerLoop s (usageMsgs items) =
      { totalCost := s.totalCost + (items.map (fun p => plannerStepCost p.2)).sum,
        processedMessageIds := s.processedMessageIds ++ items.map Prod.fst } := by
  induction items generalizing s with
  | nil => simp [usageMsgs, runPlannerLoop]
  | cons p rest ih =>
    have hfresh : s.processedMessageIds.contains p.1 = false := h3 p (by simp)
    have hp : p.1 ≠ "" := h1 p (by simp)
    rw [List.map_cons, List.nodup_cons] at h2
    rw [usageMsgs, List.map_cons, runPlannerLoop]
    simp only [isBudgetExceeded_usageMsg, Bool.false_eq_true, if_false]
    rw [plannerStep_new s p.1 p.2 hp hfresh]
    have hfold : List.map (fun q => usageMsg q.1 q.2) rest = usageMsgs rest := rfl
    rw [hfold]
    rw [ih _ (fun q hq => h1 q (by simp [hq])) h2.2
        (fun q hq => by
          rw [contains_eq_false_iff]
          simp only [List.mem_append, List.mem_singleton]
          rintro (hmem | hq1)
          · exact (contains_eq_false_iff _ _).mp (h3 q (by simp [hq])) hmem
          · exact h2.1 (hq1 ▸ List.mem_map_of_mem Prod.fst hq))]
    simp [add_assoc, List.append_assoc]

/-- C2: a budget-exceeded event stops consumption immediately — in both the
planner loop and the generator loop the run over `pre ++ budget :: post`
equals the run over `pre` alone (whatever `post` is, so no event after the
budget-exceeded event is processed, and the partial state is what is
reported); moreover, starting from the fresh ledger, the final total over
`pre ++ budget :: post` for a block of distinct usage events `pre` is the
sum of the rate-table costs of exactly the usage events preceding the
budget-exceeded event. -/
theorem budget_exceeded_stops_consumption :
    (∀ (s : CostState) (pre post : List SDKMessage),
        (∀ m ∈ pre, isBudgetExceeded m = false) →
        runPlannerLoop s (pre ++ SDKMessage.errorBudgetExceeded :: post) =
          runPlannerLoop s pre)
    ∧ (∀ (t : ℚ) (pre post : List SDKMessage),
        (∀ m ∈ pre, isBudgetExceeded m = false) →
        runGeneratorLoop t (pre ++ SDKMessage.errorBudgetExceeded :: post) =
          runGeneratorLoop t pre)
    ∧ (∀ (items : List (String × Usage)) (post : List SDKMessage),
        (∀ p ∈ items, p.1 ≠ "") → (items.map Prod.fst).Nodup →
        (runPlannerLoop { totalCost := 0, processedMessageIds := [] }
            (usageMsgs items ++ SDKMessage.errorBudgetExceeded :: post)).totalCost =
          (items.map (fun p => plannerStepCost p.2)).sum) := by
  have hplan : ∀ (s : CostState) (pre post : List SDKMessage),
      (∀ m ∈ pre, isBudgetExceeded m = false) →
      runPlannerLoop s (pre ++ SDKMessage.errorBudgetExceeded :: post) =
        runPlannerLoop s pre := by
    intro s pre post h
    induction pre generalizing s with
    | nil => rfl
    | cons m pre ih =>
      rw [List.cons_append, runPlannerLoop, runPlannerLoop]
      simp only [h m (by simp), Bool.false_eq_true, if_false]
      exact ih _ (fun m' hm' => h m' (by simp [hm']))
  refine ⟨hplan, ?_, ?_⟩
  · intro t pre post h
    induction pre generalizing t with
    | nil => rfl
    | cons m pre ih =>
      rw [List.cons_append, runGeneratorLoop, runGeneratorLoop]
      simp only [h m (by simp), Bool.false_eq_true, if_false]
      exact ih _ (fun m' hm' => h m' (by simp [hm']))
  · intro items post h1 h2
    rw [hplan _ _ _ (by
      intro m hm
      rcases List.mem_map.mp hm with ⟨p, _, rfl⟩
      exact isBudgetExceeded_usageMsg p.1 p.2)]
    rw [runPlannerLoop_fresh _ items h1 h2 (fun p _ => by rw [contains_eq_false_iff]; simp)]
    simp

/-- Witness for C2: the 5-event fixture — two usage events, then the
budget-exceeded event, then two more usage events that are never observed. -/
theorem budget_exceeded_stops_consumption_witness :
    (runPlannerLoop { totalCost := 0, processedMessageIds := [] }
        (usageMsgs [("s1", ⟨some 100, some 10, some 0⟩), ("s2", ⟨some 200, some 20, some 0⟩)] ++
          SDKMessage.errorBudgetExceeded ::
            [usageMsg "s4" ⟨some 400, some 40, some 0⟩,
             usageMsg "s5" ⟨some 500, some 50, some 0⟩])).totalCost =
      ([(("s1", (⟨some 100, some 10, some 0⟩ : Usage))),
        (("s2", (⟨some 200, some 20, some 0⟩ : Usage)))].map
          (fun p => plannerStepCost p.2)).sum :=
  budget_exceeded_stops_consumption.2.2
    [("s1", ⟨some 100, some 10, some 0⟩), ("s2", ⟨some 200, some 20, some 0⟩)]
    [usageMsg "s4" ⟨some 400, some 40, some 0⟩, usageMsg "s5" ⟨some 500, some 50, some 0⟩]
    (by decide) (by decide)

/-- C3 counterexample: the generate workflow's meter does not apply the
per-token rate computation — a usage event carrying one input token adds
nothing to the generator total, while the rate table assigns it cost
0.00003. -/
theorem generator_meter_ignores_token_rates :
    runGeneratorLoop 0 [usageMsg "m1" ⟨some 1, some 0, some 0⟩] = 0
    ∧ plannerStepCost ⟨some 1, some 0, some 0⟩ = 3 / 100000
    ∧ (0 : ℚ) ≠ 3 / 100000 := by
  refine ⟨rfl, ?_, by norm_num⟩
  norm_num [plannerStepCost]

/-- C3 (amended): for a fresh truthy identifier the planner meter (and the
spec-modelled docs-check tracker, which shares it) adds exactly
`inputTokens·0.00003 + outputTokens·0.00015 + cachedInputTokens·0.0000075`
with missing token fields treated as zero; the generate workflow's meter
instead adds the precomputed `cost` field of system messages and adds
nothing for token-carrying usage events. -/
theorem per_token_rate_computation :
    (∀ (s : CostState) (i : String) (u : Usage),
        i ≠ "" → s.processedMessageIds.contains i = false →
        (plannerStep s (usageMsg i u)).totalCost =
          s.totalCost + ((u.input_tokens.getD 0 : ℚ) * 0.00003
            + (u.output_tokens.getD 0 : ℚ) * 0.00015
            + (u.cache_read_input_tokens.getD 0 : ℚ) * 0.0000075))
    ∧ (∀ (t c : ℚ), genStep t (.system (some c)) = t + c)
    ∧ (∀ (t : ℚ) (i : String) (u : Usage), genStep t (usageMsg i u) = t)
    ∧ (∀ msgs, (trackQuery msgs).1 =
        (runPlannerLoop { totalCost := 0, processedMessageIds := [] } msgs).totalCost) := by
  refine ⟨?_, fun t c => rfl, fun t i u => rfl, fun msgs => rfl⟩
  intro s i u hi h
  rw [plannerStep_new s i u hi h]
  rfl

/-! ## Diff truncation (docs-checker.ts / planner.ts, getPRInfo)

`diff.slice(0, 50000)` operates on a JS string, i.e. on UTF-16 code units.
A JS string is embedded as a list of code units (`List Nat`, each < 2^16);
`slice(0, 50000)` is `List.take 50000`. -/

/-- A UTF-16 high (leading) surrogate code unit. -/
def isHighSurrogate (u : Nat) : Bool := decide (0xD800 ≤ u ∧ u < 0xDC00)

/-- A UTF-16 low (trailing) surrogate code unit. -/
def isLowSurrogate (u : Nat) : Bool := decide (0xDC00 ≤ u ∧ u < 0xE000)

/-- Any UTF-16 surrogate code unit. -/
def isSurrogate (u : Nat) : Bool := decide (0xD800 ≤ u ∧ u < 0xE000)

/-- UTF-8 byte count of one code unit encoded alone (a lone surrogate is
encoded as in WTF-8: 3 bytes). -/
def cuBytes (u : Nat) : Nat := if u < 0x80 then 1 else if u < 0x800 then 2 else 3

/-- UTF-8 byte length of the text denoted by a UTF-16 code-unit sequence: a
high/low surrogate pair encodes one astral code point in 4 bytes; every
other unit encodes on its own. -/
def utf8ByteLenUtf16 : List Nat → Nat
  | [] => 0
  | [u] => cuBytes u
  | u :: v :: rest =>
    if isHighSurrogate u && isLowSurrogate v then 4 + utf8ByteLenUtf16 rest
    else cuBytes u + utf8ByteLenUtf16 (v :: rest)

/-- A code-unit sequence is well formed when every surrogate occurs as a
high/low pair — i.e. no multibyte encoding sequence is cut. -/
def utf16WellFormed : List Nat → Bool
  | [] => true
  | [u] => !(isSurrogate u)
  | u :: v :: rest =>
    if isHighSurrogate u && isLowSurrogate v then utf16WellFormed rest
    else !(isSurrogate u) && utf16WellFormed (v :: rest)

/-- `diff.slice(0, 50000)`, the truncation applied to the diff field of the
PR info in docs-checker.ts and planner.ts. -/
def jsTruncateDiff (s : List Nat) : List Nat := s.take 50000

section TruncationLemmas

/-- A non-surrogate unit never starts a pair. -/
theorem isHighSurrogate_eq_false_of_not_surrogate (u : Nat)
    (h : isSurrogate u = false) : isHighSurrogate u = false := by
  simp only [isSurrogate, isHighSurrogate, decide_eq_false_iff_not] at *
  intro hc
  exact h ⟨hc.1, by omega⟩

/-- Byte length steps over a non-surrogate head unit. -/
theorem utf8ByteLenUtf16_cons (u : Nat) (t : List Nat)
    (h : isSurrogate u = false) :
    utf8ByteLenUtf16 (u :: t) = cuBytes u + utf8ByteLenUtf16 t := by
  cases t with
  | nil => simp [utf8ByteLenUtf16]
  | cons v rest =>
    rw [utf8ByteLenUtf16]
    rw [isHighSurrogate_eq_false_of_not_surrogate u h]
    simp

/-- Byte length of a constant non-surrogate block. -/
theorem utf8ByteLenUtf16_replicate (n : Nat) (u : Nat)
    (h : isSurrogate u = false) :
    utf8ByteLenUtf16 (List.replicate n u) = n * cuBytes u := by
  induction n with
  | zero => simp [utf8ByteLenUtf16]
  | succ n ih =>
    rw [List.replicate_succ, utf8ByteLenUtf16_cons u _ h, ih]
    ring

/-- Well-formedness steps over a non-surrogate head unit. -/
theorem utf16WellFormed_cons (u : Nat) (t : List Nat)
    (h : isSurrogate u = false) :
    utf16WellFormed (u :: t) = utf16WellFormed t := by
  cases t with
  | nil => simp [utf16WellFormed, h]
  | cons v rest =>
    rw [utf16WellFormed]
    rw [isHighSurrogate_eq_false_of_not_surrogate u h]
    simp [h]

/-- Well-formedness is unaffected by a leading constant non-surrogate block. -/
theorem utf16WellFormed_replicate_append (n : Nat) (u : Nat) (t : List Nat)
    (h : isSurrogate u = false) :
    utf16WellFormed (List.replicate n u ++ t) = utf16WellFormed t := by
  induction n with
  | zero => simp
  | succ n ih =>
    rw [List.replicate_succ, List.cons_append, utf16WellFormed_cons u _ h, ih]

end TruncationLemmas

/-- C4 counterexample: `slice(0, 50000)` caps UTF-16 code units, not bytes —
50001 Euro signs (3 UTF-8 bytes each) truncate to a diff of 150000 bytes —
and it can cut in the middle of a multibyte sequence: a well-formed input
ending in one astral emoji truncates to a sequence ending in a lone
high surrogate. -/
theorem diff_truncation_not_byte_bounded :
    50000 < utf8ByteLenUtf16 (jsTruncateDiff (List.replicate 50001 0x20AC))
    ∧ utf16WellFormed (List.replicate 49999 0x61 ++ [0xD83D, 0xDE00]) = true
    ∧ utf16WellFormed (jsTruncateDiff (List.replicate 49999 0x61 ++ [0xD83D, 0xDE00])) = false := by
  have hE : isSurrogate 0x20AC = false := by decide
  have ha : isSurrogate 0x61 = false := by decide
  refine ⟨?_, ?_, ?_⟩
  · rw [jsTruncateDiff, List.take_replicate]
    rw [utf8ByteLenUtf16_replicate _ _ hE]
    decide
  · rw [utf16WellFormed_replicate_append _ _ _ ha]
    decide
  · rw [jsTruncateDiff, List.take_append_eq_append_take]
    rw [List.take_of_length_le (by rw [List.length_replicate]; omega), List.length_replicate]
    rw [show (50000 - 49999 : Nat) = 1 from rfl]
    rw [show ([0xD83D, 0xDE00] : List Nat).take 1 = [0xD83D] from rfl]
    rw [utf16WellFormed_replicate_append _ _ _ ha]
    decide

/-- C4 (amended): the diff field is the deterministic truncation of the
input to its first 50,000 UTF-16 code units — the code-unit length never
exceeds 50,000 and inputs of at most 50,000 code units pass through
unchanged (but the byte length may exceed 50,000 and a surrogate pair may
be split, per the counterexample). -/
theorem diff_truncation_code_units (s : List Nat) :
    (jsTruncateDiff s).length ≤ 50000
    ∧ (s.length ≤ 50000 → jsTruncateDiff s = s) :=
  ⟨List.length_take_le 50000 s, fun h => List.take_of_length_le h⟩

/-- Witness for the amended C4 at a concrete short diff. -/
theorem diff_truncation_code_units_witness :
    jsTruncateDiff [0x68, 0x69] = [0x68, 0x69] :=
  (diff_truncation_code_units [0x68, 0x69]).2 (by decide)

/-! ## JS string primitives used by getPRInfo and filterRelevantChanges

JS strings under character-level scrutiny are embedded as `List Char`. -/

/-- JS whitespace recognised by `String.prototype.trim` / `parseInt`
(the common ASCII subset). -/
def isJsWs (c : Char) : Bool :=
  c = ' ' || c = '\t' || c = '\n' || c = '\r' || c = '\x0b' || c = '\x0c'

/-- `String.prototype.trim`. -/
def jsTrim (cs : List Char) : List Char :=
  ((cs.dropWhile isJsWs).reverse.dropWhile isJsWs).reverse

/-- `String.prototype.split(sep)` for a one-character separator: always
returns at least one (possibly empty) field. -/
def splitOnChar (sep : Char) : List Char → List (List Char)
  | [] => [[]]
  | c :: rest =>
    let r := splitOnChar sep rest
    if c = sep then [] :: r else (c :: r.headD []) :: r.tail

/-- An ASCII decimal digit. -/
def isDecDigit (c : Char) : Bool := '0' ≤ c && c ≤ '9'

/-- An ASCII hexadecimal digit. -/
def isHexDigitCh (c : Char) : Bool :=
  isDecDigit c || ('a' ≤ c && c ≤ 'f') || ('A' ≤ c && c ≤ 'F')

/-- Numeric value of a decimal digit string. -/
def decDigitsVal (ds : List Char) : Nat :=
  ds.foldl (fun a c => a * 10 + (c.toNat - '0'.toNat)) 0

/-- Numeric value of one hexadecimal digit. -/
def hexDigitVal (c : Char) : Nat :=
  if isDecDigit c then c.toNat - '0'.toNat
  else if 'a' ≤ c && c ≤ 'f' then c.toNat - 'a'.toNat + 10
  else c.toNat - 'A'.toNat + 10

/-- Numeric value of a hexadecimal digit string. -/
def hexDigitsVal (ds : List Char) : Nat :=
  ds.foldl (fun a c => a * 16 + hexDigitVal c) 0

/-- Magnitude part of JS `parseInt` (radix auto-detection after the sign):
a `0x`/`0X` prefix switches to hexadecimal; otherwise the longest leading
run of decimal digits is taken; no digits means `NaN` (`none`). -/
def jsParseIntMag (cs : List Char) : Option Nat :=
  match cs with
  | '0' :: 'x' :: rest =>
    let ds := rest.takeWhile isHexDigitCh
    if ds.isEmpty then none else some (hexDigitsVal ds)
  | '0' :: 'X' :: rest =>
    let ds := rest.takeWhile isHexDigitCh
    if ds.isEmpty then none else some (hexDigitsVal ds)
  | _ =>
    let ds := cs.takeWhile isDecDigit
    if ds.isEmpty then none else some (decDigitsVal ds)

/-- JS `parseInt(s)` (no radix argument): skip leading whitespace, read an
optional sign, then the auto-detected-radix magnitude; `none` is `NaN`. -/
def jsParseInt (cs0 : List Char) : Option Int :=
  match cs0.dropWhile isJsWs with
  | '-' :: r => (jsParseIntMag r).map (fun n => -(Int.ofNat n))
  | '+' :: r => (jsParseIntMag r).map (fun n => Int.ofNat n)
  | cs1 => (jsParseIntMag cs1).map (fun n => Int.ofNat n)

/-- `parseInt(x) || 0`: an absent field (`undefined`) or a `NaN` parse
yields 0 (`0 || 0` and `-0 || 0` are also 0, which coincides with the
parsed value in `Int`). -/
def jsParseIntOr0 : Option (List Char) → Int
  | none => 0
  | some cs => (jsParseInt cs).getD 0

/-! ## Per-file numstat parsing (getPRInfo in docs-checker.ts/planner.ts) -/

/-- One entry of `PRInfo.files`:
`{ filename, status: "modified", additions, deletions }`.  `filename` is
`parts[2]` of the tab-split line and may be `undefined`. -/
structure NumstatEntry where
  filename : Option String
  status : String
  additions : Int
  deletions : Int
  deriving Repr, DecidableEq

/-- The per-line mapper of `getPRInfo`:
`const [additions, deletions, filename] = line.split("\t")` followed by
`parseInt(...) || 0` on the two count fields and `status: "modified"`. -/
def parseNumstatLine (line : List Char) : NumstatEntry :=
  let parts := splitOnChar '\t' line
  { filename := (parts.get? 2).map (fun cs => String.mk cs),
    status := "modified",
    additions := jsParseIntOr0 (parts.get? 0),
    deletions := jsParseIntOr0 (parts.get? 1) }

/-- The whole numstat extraction:
`numstat.trim().split("\n").filter(line => line).map(...)`. -/
def parseNumstat (out : List Char) : List NumstatEntry :=
  ((splitOnChar '\n' (jsTrim out)).filter (fun l => !l.isEmpty)).map parseNumstatLine

/-- An `Option Nat` mapped into `Int` is never negative. -/
theorem natCast_getD_nonneg (o : Option Nat) :
    0 ≤ (o.map (fun n => Int.ofNat n)).getD 0 := by
  cases o with
  | none => simp
  | some n => exact Int.ofNat_nonneg n

/-- `parseInt(x) || 0` is non-negative whenever the first
non-whitespace character is not a minus sign. -/
theorem jsParseIntOr0_nonneg (cs : List Char)
    (h : (cs.dropWhile isJsWs).headD ' ' ≠ '-') :
    0 ≤ jsParseIntOr0 (some cs) := by
  show 0 ≤ (jsParseInt cs).getD 0
  unfold jsParseInt
  split
  · next r heq => exact absurd (by rw [heq]; rfl) h
  · next r heq => exact natCast_getD_nonneg _
  · next => exact natCast_getD_nonneg _

/-! ## Relevance filter (filterRelevantChanges in docs-checker.ts) -/

/-- The PR summary handed through the docs-check pipeline
(`PRInfo` in docs-checker.ts): `body` may be `null` and `diff` is a JS
string (UTF-16 code units). -/
structure PRInfo where
  number : Int
  title : String
  body : Option String
  files : List NumstatEntry
  diff : List Nat
  deriving Repr, DecidableEq

/-- The structured verdict of the relevance filter
(`FilteredChanges` in docs-checker.ts). -/
structure FilteredChanges where
  hasRelevantChanges : Bool
  summary : String
  reason : String
  deriving Repr, DecidableEq

/-- JS `a || b` for a `string | null` left operand. -/
def jsOrElse (b : Option String) (t : String) : String :=
  match b with
  | some s => if s = "" then t else s
  | none => t

/-- The fail-open default of `filterRelevantChanges`:
`{hasRelevantChanges: true, summary: prInfo.body || prInfo.title,
reason: "Could not determine relevance, defaulting to check"}`. -/
def fallbackFilteredChanges (prInfo : PRInfo) : FilteredChanges :=
  { hasRelevantChanges := true,
    summary := jsOrElse prInfo.body prInfo.title,
    reason := "Could not determine relevance, defaulting to check" }

/-- The JSON-locating step `responseText.match(/\x7b[\s\S]*\x7d/)`: the
greedy match runs from the first opening brace to the last closing brace
at or after it; no such pair means no match. -/
def locateJson (cs : List Char) : Option (List Char) :=
  match cs.dropWhile (fun c => c ≠ '{') with
  | [] => none
  | c :: rest =>
    let r := (rest.reverse.dropWhile (fun ch => ch ≠ '}')).reverse
    if r.isEmpty then none else some (c :: r)

/-- `filterRelevantChanges` after the completion call: locate a JSON
object substring in the reply, run it through `JSON.parse` (an opaque
external library call, abstracted as `jsonParse`), and fall back to the
fail-open default when either step fails. -/
def filterRelevantChanges (jsonParse : List Char → Option FilteredChanges)
    (prInfo : PRInfo) (responseText : List Char) : FilteredChanges :=
  match locateJson responseText with
  | some m =>
    match jsonParse m with
    | some fc => fc
    | none => fallbackFilteredChanges prInfo
  | none => fallbackFilteredChanges prInfo

/-- C5: whenever no JSON object can be located in the classification reply
or the located substring fails to parse, the relevance filter returns the
fail-open verdict — `hasRelevantChanges = true` with the rationale noting
the fallback — for every input PR summary (in particular one with an empty
file list). -/
theorem parse_failure_fails_open
    (jsonParse : List Char → Option FilteredChanges) (prInfo : PRInfo)
    (responseText : List Char)
    (h : ∀ m, locateJson responseText = some m → jsonParse m = none) :
    filterRelevantChanges jsonParse prInfo responseText = fallbackFilteredChanges prInfo
    ∧ (filterRelevantChanges jsonParse prInfo responseText).hasRelevantChanges = true
    ∧ (filterRelevantChanges jsonParse prInfo responseText).reason =
        "Could not determine relevance, defaulting to check" := by
  have hf : filterRelevantChanges jsonParse prInfo responseText =
      fallbackFilteredChanges prInfo := by
    unfold filterRelevantChanges
    cases hl : locateJson responseText with
    | none => rfl
    | some m =>
      show (match jsonParse m with
        | some fc => fc
        | none => fallbackFilteredChanges prInfo) = fallbackFilteredChanges prInfo
      rw [h m hl]
  exact ⟨hf, by rw [hf]; rfl, by rw [hf]; rfl⟩

/-- Witness for C5: a braceless reply, an always-failing parser, and a PR
summary with an empty file list. -/
theorem parse_failure_fails_open_witness :
    (filterRelevantChanges (fun _ => none)
        { number := 123, title := "t", body := none, files := [], diff := [] }
        ("no structured output".toList)).hasRelevantChanges = true :=
  (parse_failure_fails_open (fun _ => none)
    { number := 123, title := "t", body := none, files := [], diff := [] }
    ("no structured output".toList) (fun _ _ => rfl)).2.1

/-- C6 counterexample: the numstat line parser maps the line
`"-5\t4\tfile"` to a negative added-line count, so the parsed counts are
not always non-negative. -/
theorem numstat_count_can_be_negative :
    (parseNumstatLine ("-5\t4\tfile".toList)).additions = -5
    ∧ (parseNumstatLine ("-5\t4\tfile".toList)).additions < 0 := by
  constructor <;> decide

/-- `parseInt(parts[k]) || 0` is non-negative whenever field `k` does not
begin (after whitespace) with a minus sign — in particular when the field
is absent. -/
theorem jsParseIntOr0_get_nonneg (parts : List (List Char)) (k : Nat)
    (h : ((parts.getD k []).dropWhile isJsWs).headD ' ' ≠ '-') :
    0 ≤ jsParseIntOr0 (parts.get? k) := by
  cases hp : parts.get? k with
  | none => exact le_refl 0
  | some f =>
    have hf : parts.getD k [] = f := by
      rw [List.getD_eq_getElem?_getD, ← List.get?_eq_getElem?, hp]
      rfl
    exact jsParseIntOr0_nonneg f (by rwa [hf] at h)

/-- C6 (amended): `"12\t4\tsrc/app.ts"` parses to
`{path: "src/app.ts", added: 12, deleted: 4}`; a count field that fails to
parse as a number (including an absent field) defaults to 0 rather than
aborting; and the parsed counts are non-negative whenever the count fields
do not begin (after whitespace) with a minus sign — true of every field
git numstat emits — though a leading minus numeral yields a negative
count. -/
theorem numstat_line_parsing :
    parseNumstatLine ("12\t4\tsrc/app.ts".toList) =
      { filename := some "src/app.ts", status := "modified",
        additions := 12, deletions := 4 }
    ∧ (parseNumstatLine ("-\t4\tfile".toList)).additions = 0
    ∧ (∀ cs, jsParseInt cs = none → jsParseIntOr0 (some cs) = 0)
    ∧ jsParseIntOr0 none = 0
    ∧ (∀ line : List Char,
        (((splitOnChar '\t' line).getD 0 []).dropWhile isJsWs).headD ' ' ≠ '-' →
        (((splitOnChar '\t' line).getD 1 []).dropWhile isJsWs).headD ' ' ≠ '-' →
        0 ≤ (parseNumstatLine line).additions ∧
          0 ≤ (parseNumstatLine line).deletions) := by
  refine ⟨by decide, by decide, ?_, rfl, ?_⟩
  · intro cs hcs
    show (jsParseInt cs).getD 0 = 0
    rw [hcs]
    rfl
  · intro line h0 h1
    exact ⟨jsParseIntOr0_get_nonneg _ 0 h0, jsParseIntOr0_get_nonneg _ 1 h1⟩

/-- Witness for the amended C6 at a concrete well-formed numstat line. -/
theorem numstat_line_parsing_witness :
    0 ≤ (parseNumstatLine ("7\t2\ta.ts".toList)).additions ∧
      0 ≤ (parseNumstatLine ("7\t2\ta.ts".toList)).deletions :=
  numstat_line_parsing.2.2.2.2 ("7\t2\ta.ts".toList) (by decide) (by decide)

/-! ## The docs-check pipeline (checkDocs in docs-checker.ts)

`checkDocs` is embedded as a pure function from the environment and an
explicit world (the event payload file, the outcomes of the external git,
classification, DocsBot and agent calls) to a trace recording the exit
code, the error log of the startup validation, and which effects were
performed. -/

/-- The environment variables read by docs-checker.ts
(each `string | undefined`). -/
structure DocsEnv where
  docsbotApiKey : Option String
  docsbotTeamId : Option String
  docsbotBotId : Option String
  playmakerMock : Option String
  githubEventPath : Option String
  deriving Repr, DecidableEq

/-- The validated DocsBot credential triple. -/
structure DocsBotConfig where
  apiKey : String
  teamId : String
  botId : String
  deriving Repr, DecidableEq

/-- All three DocsBot credentials are truthy
(`!apiKey || !teamId || !botId` is the source's failure condition). -/
def credsOk (env : DocsEnv) : Bool :=
  isTruthyStr env.docsbotApiKey && isTruthyStr env.docsbotTeamId
    && isTruthyStr env.docsbotBotId

/-- The enumerated `console.error` lines naming each missing credential, in
source order. -/
def missingDocsBotVars (env : DocsEnv) : List String :=
  (if isTruthyStr env.docsbotApiKey then [] else ["  - DOCSBOT_API_KEY"])
    ++ (if isTruthyStr env.docsbotTeamId then [] else ["  - DOCSBOT_TEAM_ID"])
    ++ (if isTruthyStr env.docsbotBotId then [] else ["  - DOCSBOT_BOT_ID"])

/-- `validateDocsBotEnv`: the validated triple, or `none` together with the
error lines printed (header line first, then one line per missing name). -/
def validateDocsBotEnv (env : DocsEnv) : Option DocsBotConfig × List String :=
  if credsOk env then
    (some { apiKey := env.docsbotApiKey.getD "", teamId := env.docsbotTeamId.getD "",
            botId := env.docsbotBotId.getD "" }, [])
  else
    (none, "Missing required DocsBot environment variables:" :: missingDocsBotVars env)

/-- The `pull_request` object of the GitHub event payload (only the fields
the source reads). -/
structure PRData where
  number : Int
  title : String
  body : Option String
  base_sha : String
  head_sha : String
  deriving Repr, DecidableEq

/-- The parsed GitHub event payload: it may lack a `pull_request` key. -/
structure EventPayload where
  pull_request : Option PRData
  deriving Repr, DecidableEq

/-- `getPRInfo` (docs-checker.ts): a missing/empty `GITHUB_EVENT_PATH` or a
payload without `pull_request` yields `null`; otherwise the PR info is
assembled, with each failing git call degrading to an empty field and the
diff truncated by `slice(0, 50000)`. -/
def getPRInfo (eventPath : Option String) (payload : EventPayload)
    (gitDiff : Option (List Nat)) (gitNumstat : Option (List Char)) : Option PRInfo :=
  if isTruthyStr eventPath then
    match payload.pull_request with
    | none => none
    | some pr =>
      some { number := pr.number, title := pr.title, body := pr.body,
             files := match gitNumstat with
               | none => []
               | some out => parseNumstat out,
             diff := jsTruncateDiff (gitDiff.getD []) }
  else none

/-- The hard-coded fixture PR used when `PLAYMAKER_MOCK` is truthy. -/
def mockPRInfo : PRInfo :=
  { number := 123,
    title := "Update button label",
    body := some "## Summary by CodeRabbit\n* Updated button label from \"Use a Form Preset\" to \"Start With a Template\"\n* Added new CI workflow for docs checking",
    files :=
      [ { filename := some "includes/admin/metaboxes/views/data-source.php",
          status := "modified", additions := 1, deletions := 1 },
        { filename := some ".github/workflows/docs-check.yml",
          status := "added", additions := 30, deletions := 0 } ],
    diff := [] }

/-- The world of external outcomes `checkDocs` interacts with. -/
structure CheckDocsWorld where
  payload : EventPayload
  gitDiff : Option (List Nat)
  gitNumstat : Option (List Char)
  claudeReply : List Char
  jsonParse : List Char → Option FilteredChanges
  docsBotOk : Bool
  reportExistsAfterAgent : Bool
  cwd : String

/-- The observable outcome of one `checkDocs` run: its exit code, the
validation error lines, and which effects happened. -/
structure DocsTrace where
  exitCode : Nat
  errLog : List String
  mockUsed : Bool
  claudeCalled : Bool
  docsBotCalled : Bool
  agentStarted : Bool
  reportPathWritten : Option String
  deriving Repr, DecidableEq

/-- The PR info `checkDocs` works on: the mock fixture when
`PLAYMAKER_MOCK` is truthy, else the real extraction. -/
def docsCheckPRInfo (env : DocsEnv) (w : CheckDocsWorld) : Option PRInfo :=
  if isTruthyStr env.playmakerMock then some mockPRInfo
  else getPRInfo env.githubEventPath w.payload w.gitDiff w.gitNumstat

/-- `checkDocs`: validate credentials (exit 1 on failure, before anything
else), obtain the PR info (exit 0 when absent — the not-applicable skip),
classify relevance, short-circuit with a persisted report when not
relevant, otherwise query DocsBot (exit 1 on error), run the agent session
and verify the report artifact (exit 1 when missing). -/
def checkDocs (env : DocsEnv) (w : CheckDocsWorld) : DocsTrace :=
  if ((validateDocsBotEnv env).1).isNone then
    { exitCode := 1, errLog := (validateDocsBotEnv env).2, mockUsed := false,
      claudeCalled := false, docsBotCalled := false, agentStarted := false,
      reportPathWritten := none }
  else
    match docsCheckPRInfo env w with
    | none =>
      { exitCode := 0, errLog := [], mockUsed := false, claudeCalled := false,
        docsBotCalled := false, agentStarted := false, reportPathWritten := none }
    | some prInfo =>
      let reportPath := w.cwd ++ "/docs-report.md"
      let filtered := filterRelevantChanges w.jsonParse prInfo w.claudeReply
      if !filtered.hasRelevantChanges then
        { exitCode := 0, errLog := [], mockUsed := isTruthyStr env.playmakerMock,
          claudeCalled := true, docsBotCalled := false, agentStarted := false,
          reportPathWritten := some reportPath }
      else if !w.docsBotOk then
        { exitCode := 1, errLog := ["DocsBot API error"],
          mockUsed := isTruthyStr env.playmakerMock, claudeCalled := true,
          docsBotCalled := true, agentStarted := false, reportPathWritten := none }
      else if w.reportExistsAfterAgent then
        { exitCode := 0, errLog := [], mockUsed := isTruthyStr env.playmakerMock,
          claudeCalled := true, docsBotCalled := true, agentStarted := true,
          reportPathWritten := none }
      else
        { exitCode := 1, errLog := ["No docs-report.md found"],
          mockUsed := isTruthyStr env.playmakerMock, claudeCalled := true,
          docsBotCalled := true, agentStarted := true, reportPathWritten := none }

/-- With valid credentials the validation produces the config and no error
lines. -/
theorem validateDocsBotEnv_ok (env : DocsEnv) (hc : credsOk env = true) :
    validateDocsBotEnv env =
      (some { apiKey := env.docsbotApiKey.getD "", teamId := env.docsbotTeamId.getD "",
              botId := env.docsbotBotId.getD "" }, []) := by
  unfold validateDocsBotEnv
  rw [hc]
  rfl

/-- With a missing credential the validation fails and logs the header
followed by the missing names. -/
theorem validateDocsBotEnv_missing (env : DocsEnv) (hc : credsOk env = false) :
    validateDocsBotEnv env =
      (none, "Missing required DocsBot environment variables:" :: missingDocsBotVars env) := by
  unfold validateDocsBotEnv
  rw [hc]
  rfl

/-- C7: when the relevance verdict is negative, docs-check writes the
"no documentation updates needed" report at the fixed report path and exits
with code 0 without querying DocsBot and without starting an agent
session. -/
theorem not_relevant_short_circuits (env : DocsEnv) (w : CheckDocsWorld) (pr : PRInfo)
    (hc : credsOk env = true)
    (hpr : docsCheckPRInfo env w = some pr)
    (hrel : (filterRelevantChanges w.jsonParse pr w.claudeReply).hasRelevantChanges = false) :
    checkDocs env w =
      { exitCode := 0, errLog := [], mockUsed := isTruthyStr env.playmakerMock,
        claudeCalled := true, docsBotCalled := false, agentStarted := false,
        reportPathWritten := some (w.cwd ++ "/docs-report.md") } := by
  simp only [checkDocs, validateDocsBotEnv_ok env hc, Option.isNone_some,
    Bool.false_eq_true, if_false, hpr, hrel, Bool.not_false, if_true]

/-- Witness for C7: mock PR, a reply parsing to a negative verdict. -/
theorem not_relevant_short_circuits_witness :
    checkDocs
      { docsbotApiKey := some "k", docsbotTeamId := some "t", docsbotBotId := some "b",
        playmakerMock := some "true", githubEventPath := none }
      { payload := { pull_request := none }, gitDiff := none, gitNumstat := none,
        claudeReply := "prose around {json} goes here".toList,
        jsonParse := fun _ => some { hasRelevantChanges := false, summary := "s", reason := "r" },
        docsBotOk := true, reportExistsAfterAgent := true, cwd := "/repo" } =
      { exitCode := 0, errLog := [], mockUsed := true, claudeCalled := true,
        docsBotCalled := false, agentStarted := false,
        reportPathWritten := some ("/repo" ++ "/docs-report.md") } :=
  not_relevant_short_circuits _ _ mockPRInfo (by decide) (by decide) (by decide)

/-- C8: with valid credentials and mock mode off, a missing
`GITHUB_EVENT_PATH` or a payload without `pull_request` makes docs-check
exit with code 0 having produced no artifact and performed no external
call. -/
theorem no_pull_request_is_clean_skip (env : DocsEnv) (w : CheckDocsWorld)
    (hc : credsOk env = true)
    (hm : isTruthyStr env.playmakerMock = false)
    (hskip : isTruthyStr env.githubEventPath = false ∨ w.payload.pull_request = none) :
    checkDocs env w =
      { exitCode := 0, errLog := [], mockUsed := false, claudeCalled := false,
        docsBotCalled := false, agentStarted := false, reportPathWritten := none } := by
  have hpr : docsCheckPRInfo env w = none := by
    unfold docsCheckPRInfo getPRInfo
    rw [hm]
    simp only [Bool.false_eq_true, if_false]
    rcases hskip with h | h
    · simp [h]
    · cases hep : isTruthyStr env.githubEventPath <;> simp [hep, h]
  simp only [checkDocs, validateDocsBotEnv_ok env hc, Option.isNone_some,
    Bool.false_eq_true, if_false, hpr]

/-- Witness for C8 at a concrete environment with no event path. -/
theorem no_pull_request_is_clean_skip_witness :
    checkDocs
      { docsbotApiKey := some "k", docsbotTeamId := some "t", docsbotBotId := some "b",
        playmakerMock := none, githubEventPath := none }
      { payload := { pull_request := none }, gitDiff := none, gitNumstat := none,
        claudeReply := [], jsonParse := fun _ => none,
        docsBotOk := false, reportExistsAfterAgent := false, cwd := "" } =
      { exitCode := 0, errLog := [], mockUsed := false, claudeCalled := false,
        docsBotCalled := false, agentStarted := false, reportPathWritten := none } :=
  no_pull_request_is_clean_skip _ _ (by decide) (by decide) (Or.inl (by decide))

/-- C9: a missing DocsBot credential makes docs-check exit with code 1
before any call, printing the header followed by exactly the missing
variable names. -/
theorem missing_credentials_fail_fast (env : DocsEnv) (w : CheckDocsWorld)
    (hc : credsOk env = false) :
    checkDocs env w =
      { exitCode := 1,
        errLog := "Missing required DocsBot environment variables:" :: missingDocsBotVars env,
        mockUsed := false, claudeCalled := false, docsBotCalled := false,
        agentStarted := false, reportPathWritten := none }
    ∧ missingDocsBotVars env =
        (([("DOCSBOT_API_KEY", env.docsbotApiKey), ("DOCSBOT_TEAM_ID", env.docsbotTeamId),
           ("DOCSBOT_BOT_ID", env.docsbotBotId)].filter
            (fun p => !isTruthyStr p.2)).map (fun p => String.append "  - " p.1)) := by
  constructor
  · simp only [checkDocs, validateDocsBotEnv_missing env hc, Option.isNone_none, if_true]
  · unfold missingDocsBotVars
    cases h1 : isTruthyStr env.docsbotApiKey <;>
      cases h2 : isTruthyStr env.docsbotTeamId <;>
        cases h3 : isTruthyStr env.docsbotBotId <;>
          simp [h1, h2, h3, List.filter] <;> decide

/-- Witness for C9: API key and bot id missing (the bot id empty). -/
theorem missing_credentials_fail_fast_witness :
    checkDocs
      { docsbotApiKey := none, docsbotTeamId := some "t", docsbotBotId := some "",
        playmakerMock := none, githubEventPath := none }
      { payload := { pull_request := none }, gitDiff := none, gitNumstat := none,
        claudeReply := [], jsonParse := fun _ => none,
        docsBotOk := false, reportExistsAfterAgent := false, cwd := "" } =
      { exitCode := 1,
        errLog := ["Missing required DocsBot environment variables:",
                   "  - DOCSBOT_API_KEY", "  - DOCSBOT_BOT_ID"],
        mockUsed := false, claudeCalled := false, docsBotCalled := false,
        agentStarted := false, reportPathWritten := none } :=
  (missing_credentials_fail_fast
    { docsbotApiKey := none, docsbotTeamId := some "t", docsbotBotId := some "",
      playmakerMock := none, githubEventPath := none }
    { payload := { pull_request := none }, gitDiff := none, gitNumstat := none,
      claudeReply := [], jsonParse := fun _ => none,
      docsBotOk := false, reportExistsAfterAgent := false, cwd := "" }
    (by decide)).1

/-- C10: mock mode does not bypass credential validation — with
`PLAYMAKER_MOCK` truthy and a credential missing, docs-check still exits
with code 1 and the mock fixture is never used. -/
theorem mock_mode_does_not_bypass_validation (env : DocsEnv) (w : CheckDocsWorld)
    (_hm : isTruthyStr env.playmakerMock = true)
    (hc : credsOk env = false) :
    (checkDocs env w).exitCode = 1 ∧ (checkDocs env w).mockUsed = false
    ∧ (checkDocs env w).claudeCalled = false
    ∧ (checkDocs env w).docsBotCalled = false
    ∧ (checkDocs env w).agentStarted = false := by
  have hv := validateDocsBotEnv_missing env hc
  refine ⟨?_, ?_, ?_, ?_, ?_⟩ <;> simp [checkDocs, hv]

/-- Witness for C10: mock flag set, all credentials missing. -/
theorem mock_mode_does_not_bypass_validation_witness :
    (checkDocs
        { docsbotApiKey := none, docsbotTeamId := none, docsbotBotId := none,
          playmakerMock := some "1", githubEventPath := none }
        { payload := { pull_request := none }, gitDiff := none, gitNumstat := none,
          claudeReply := [], jsonParse := fun _ => none,
          docsBotOk := false, reportExistsAfterAgent := false, cwd := "" }).exitCode = 1
    ∧ (checkDocs
        { docsbotApiKey := none, docsbotTeamId := none, docsbotBotId := none,
          playmakerMock := some "1", githubEventPath := none }
        { payload := { pull_request := none }, gitDiff := none, gitNumstat := none,
          claudeReply := [], jsonParse := fun _ => none,
          docsBotOk := false, reportExistsAfterAgent := false, cwd := "" }).mockUsed = false :=
  ⟨(mock_mode_does_not_bypass_validation _ _ (by decide) (by decide)).1,
   (mock_mode_does_not_bypass_validation _ _ (by decide) (by decide)).2.1⟩

/-- Witness for the amended C3 at a concrete fresh usage event. -/
theorem per_token_rate_computation_witness :
    (plannerStep { totalCost := 0, processedMessageIds := [] }
        (usageMsg "m1" ⟨some 2, some 3, none⟩)).totalCost =
      0 + ((2 : ℚ) * 0.00003 + (3 : ℚ) * 0.00015 + (0 : ℚ) * 0.0000075) :=
  per_token_rate_computation.1 { totalCost := 0, processedMessageIds := [] }
    "m1" ⟨some 2, some 3, none⟩ (by decide) (by decide)

end Playmaker
